import Mathlib

/-!
Verification development for the outbound AI-caller orchestrator.

The definitions below are a shallow embedding of the retry scheduler, the
call-status ingress, the queue processor and the media bridge of the
repository (src/outgoing-call.js, src/unnamed/part_000, src/unnamed/part_002).
Instants are modelled as integer milliseconds since the Unix epoch, matching
the JavaScript `Date` arithmetic of the source; the civil time zone of the
host process is modelled as a fixed UTC offset in milliseconds (Europe/Rome
is +3600000 on the dates used in the concrete examples).
-/

namespace AICaller

/-- Milliseconds in one civil day, as used by the JavaScript `Date` model. -/
def msPerDay : Int := 86400000

/-- Embedding of the `next_time` branch of `scheduleRetry`
(src/outgoing-call.js lines 124-135):
`target = new Date(now); target.setHours(hour,0,0,0);
 if (now >= target) target.setDate(target.getDate()+1)`.
`off` is the host civil-zone UTC offset in milliseconds, `hour` the target
wall-clock hour, `now` the current instant. `setHours` zeroes
minutes/seconds/milliseconds on the local calendar day of `now`; the
conditional adds one civil day. -/
def nextTimeScheduledAt (off : Int) (hour : Int) (now : Int) : Int :=
  let loc := now + off
  let localMidnight := loc - loc % msPerDay
  let target := localMidnight + hour * 3600000 - off
  if target ≤ now then target + msPerDay else target

/-- One step of the fixed retry ladder of `scheduleRetry`
(src/outgoing-call.js lines 89-108). -/
inductive ScheduleKind where
  | immediate : ScheduleKind
  | delay (hours : Nat) : ScheduleKind
  | nextTime (hour : Nat) : ScheduleKind
  deriving DecidableEq, Repr

/-- The `RETRY_SCHEDULE` array of `scheduleRetry`
(src/outgoing-call.js lines 89-108). -/
def RETRY_SCHEDULE : List ScheduleKind :=
  [.immediate, .delay 1, .immediate, .nextTime 9, .immediate,
   .nextTime 14, .immediate, .nextTime 19, .immediate]

/-- The scheduled-at computation of `scheduleRetry`
(src/outgoing-call.js lines 110-135). `currentAttemptNumber` is the retry
count of the failed call; the ladder is indexed by
`nextAttemptNumberForDB - 1 = currentAttemptNumber`, with the source's
`|| { type: 'immediate' }` fallback for out-of-range indices.
`forceImmediate` models `options.forceImmediate`. -/
def scheduledAtBase (forceImmediate : Bool) (currentAttemptNumber : Nat)
    (now off : Int) : Int :=
  let scheduleConfig := (RETRY_SCHEDULE.get? currentAttemptNumber).getD .immediate
  if forceImmediate then now
  else
    match scheduleConfig with
    | .immediate => now
    | .delay hours => now + (hours : Int) * 3600000
    | .nextTime hour => nextTimeScheduledAt off (hour : Int) now

/-- JavaScript falsy-or on strings (`a || b`), with the empty string modelling
an absent or falsy field. -/
def orFalsy (a b : String) : String :=
  if a = "" then b else a

/-- The call data object handed to `scheduleRetry` (the row returned by
`getCallData`, src/unnamed/part_000, possibly still carrying request-shaped
fields). Absent string fields are modelled as the empty string. -/
structure CallDataForRetry where
  retry_count : Option Nat := none
  first_attempt_timestamp : Option Int := none
  phone : String := ""
  «to» : String := ""
  contactId : String := ""
  contact_id : String := ""
  firstName : String := ""
  first_name : String := ""
  fullName : String := ""
  full_name : String := ""
  email : String := ""
  full_address : String := ""
  address : String := ""
  signedUrl : String := ""
  deriving DecidableEq, Repr

/-- A row of the `call_queue` table (src/db.js lines 162-179). `queue_id` is
the autoincrement key; rows built by the insert helpers carry the id later
assigned by the database. -/
structure CallQueueRow where
  queue_id : Nat := 0
  contact_id : String
  phone_number : String
  first_name : String := ""
  full_name : String := ""
  email : String := ""
  full_address : String := ""
  retry_stage : Nat
  status : String
  scheduled_at : Int
  initial_signed_url : String := ""
  first_attempt_timestamp : Option Int := none
  last_attempt_at : Option Int := none
  last_error : Option String := none
  deriving DecidableEq, Repr

/-- Result of one `scheduleRetry` invocation (src/outgoing-call.js lines
65-211): the max-attempts early return (lines 71-86, Slack notification
only), the missing-contact-data early return (lines 145-160, Slack
notification only), or the insert into `call_queue` (lines 188-192). -/
inductive RetryOutcome where
  | maxAttemptsReached : RetryOutcome
  | missingContactData : RetryOutcome
  | inserted (row : CallQueueRow) : RetryOutcome
  deriving DecidableEq, Repr

/-- `MAX_TOTAL_ATTEMPTS` (src/outgoing-call.js line 69). -/
def MAX_TOTAL_ATTEMPTS : Nat := 10

/-- Embedding of `scheduleRetry` (src/outgoing-call.js lines 65-211).
`now` is the current instant, `off` the host civil-zone offset. The
database insert is represented by the returned `CallQueueRow`. -/
def scheduleRetry (cd : CallDataForRetry) (forceImmediate : Bool)
    (now off : Int) : RetryOutcome :=
  let currentAttemptNumber := cd.retry_count.getD 0
  let firstAttemptTimestamp := cd.first_attempt_timestamp.getD now
  if MAX_TOTAL_ATTEMPTS - 1 ≤ currentAttemptNumber then .maxAttemptsReached
  else
    let nextAttemptNumberForDB := currentAttemptNumber + 1
    let scheduled_at := scheduledAtBase forceImmediate currentAttemptNumber now off
    let safeTo := orFalsy cd.phone cd.«to»
    let safeContactId := orFalsy cd.contactId cd.contact_id
    let safeFirstName := orFalsy cd.firstName cd.first_name
    let safeFullName := orFalsy cd.fullName cd.full_name
    let safeAddress := orFalsy cd.full_address cd.address
    if safeTo = "" ∨ safeContactId = "" then .missingContactData
    else
      .inserted
        { contact_id := safeContactId
          phone_number := safeTo
          first_name := safeFirstName
          full_name := safeFullName
          email := cd.email
          full_address := safeAddress
          retry_stage := nextAttemptNumberForDB
          status := "pending"
          scheduled_at := scheduled_at
          initial_signed_url := cd.signedUrl
          first_attempt_timestamp := some firstAttemptTimestamp }

/-- The initial enqueue performed by the `outbound-call` endpoint
(src/outgoing-call.js lines 266-277): `retry_stage` 0, `scheduled_at` now,
`first_attempt_timestamp` now. -/
def outboundCallEnqueue (contactId toPhoneValue firstName fullName emailValue
    address signedUrl : String) (now : Int) : CallQueueRow :=
  { contact_id := contactId
    phone_number := toPhoneValue
    first_name := firstName
    full_name := fullName
    email := emailValue
    full_address := address
    retry_stage := 0
    status := "pending"
    scheduled_at := now
    initial_signed_url := signedUrl
    first_attempt_timestamp := some now }

/-- A row of the `calls` table (src/db.js lines 135-153), as returned by
`getCallData` (src/unnamed/part_000): `retry_count` coerced to a number,
`first_attempt_timestamp` to an instant, `retry_scheduled` stored as 0/1
and modelled as Bool. Absent text columns are the empty string. -/
structure CallRow where
  callSid : String
  phone : String := ""
  contactId : String := ""
  retry_count : Option Nat := none
  status : String := ""
  created_at : Option Int := none
  signedUrl : String := ""
  fullName : String := ""
  firstName : String := ""
  email : String := ""
  answeredBy : String := ""
  conversationId : String := ""
  full_address : String := ""
  first_attempt_timestamp : Option Int := none
  retry_scheduled : Bool := false
  deriving DecidableEq, Repr

/-- The `setCallData` write performed by the queue processor right after the
carrier call is created (src/unnamed/part_002 lines 107-119), with the
`to` field mapped to the `phone` column by `setCallData`
(src/unnamed/part_000 lines 54-58). Columns not supplied keep their
defaults (`retry_scheduled` 0). -/
def initialCallRow (sid : String) (job : CallQueueRow) (now : Int) : CallRow :=
  { callSid := sid
    phone := job.phone_number
    contactId := job.contact_id
    retry_count := some job.retry_stage
    status := "initiated"
    created_at := some now
    signedUrl := job.initial_signed_url
    fullName := job.full_name
    firstName := job.first_name
    email := job.email
    first_attempt_timestamp := job.first_attempt_timestamp
    full_address := job.full_address
    retry_scheduled := false }

/-- Projection of a `calls` row to the object handed to `scheduleRetry` by
the status handler (the handler passes the `getCallData` row directly;
that row has `phone` and `contactId` fields and no `to` or `contact_id`
properties). -/
def callDataOfRow (c : CallRow) : CallDataForRetry :=
  { retry_count := c.retry_count
    first_attempt_timestamp := c.first_attempt_timestamp
    phone := c.phone
    contactId := c.contactId
    firstName := c.firstName
    fullName := c.fullName
    email := c.email
    full_address := c.full_address
    signedUrl := c.signedUrl }

/-- Observable actions of the `call-status` handler
(src/outgoing-call.js lines 322-444), in program order. Store writes are
`writeAnsweredBy` (line 365) and `writeRetryScheduled` (lines 386 and 419);
`respond code msg` is the `reply.code(code).send(msg)` acknowledgement. -/
inductive HandlerEv where
  | lookupCall : HandlerEv
  | sleepMs (ms : Nat) : HandlerEv
  | writeAnsweredBy (v : String) : HandlerEv
  | writeRetryScheduled : HandlerEv
  | twilioFetch : HandlerEv
  | twilioEndCall : HandlerEv
  | callScheduleRetry (reason : String) : HandlerEv
  | slackNonFatal : HandlerEv
  | slackPositive : HandlerEv
  | respond (code : Nat) (msg : String) : HandlerEv
  deriving DecidableEq, Repr

/-- The `machineDetectionStatuses` list (src/outgoing-call.js line 353). -/
def machineDetectionStatuses : List String :=
  ["machine_start", "fax", "machine_beep", "machine_end_silence",
   "machine_end_other", "machine_end_beep"]

/-- The `isMachineDetected` computation (src/outgoing-call.js lines 354-355):
either the callback parameter or the stored answered-by classifies as a
machine. Empty string models a falsy value. -/
def isMachineDetected (answeredByParam storedAnsweredBy : String) : Bool :=
  (answeredByParam != "" &&
     machineDetectionStatuses.contains answeredByParam.toLower) ||
  (storedAnsweredBy != "" &&
     machineDetectionStatuses.contains storedAnsweredBy.toLower)

/-- The terminal status list used at lines 383 and 388 of
src/outgoing-call.js. -/
def terminalStatuses : List String := ["completed", "canceled", "failed"]

/-- The body of the `call-status` handler after a call row has been found
(src/outgoing-call.js lines 347-443), as the ordered list of observable
actions in the non-exception execution. `twilioStatus` is the status the
carrier control API reports when the machine-detection branch fetches the
live call (line 387). -/
def processStatus (callStatus answeredBy : String) (call : CallRow)
    (twilioStatus : String) : List HandlerEv :=
  if call.retry_scheduled then [.respond 200 "OK. Retry already handled."]
  else
    let machine := isMachineDetected answeredBy call.answeredBy
    let answeredByUpd : List HandlerEv :=
      if answeredBy != "" && answeredBy != call.answeredBy then
        [.writeAnsweredBy answeredBy]
      else []
    answeredByUpd ++
      (if machine && !(terminalStatuses.contains callStatus) then
        [.writeRetryScheduled, .twilioFetch] ++
          (if !(terminalStatuses.contains twilioStatus) then [.twilioEndCall]
           else []) ++
          [.callScheduleRetry "machine_detected",
           .respond 200 "OK. Machine detected, call ended, retry scheduled."]
      else if (["completed", "canceled"].contains callStatus && machine) ||
              callStatus == "no-answer" || callStatus == "busy" ||
              callStatus == "failed" then
        [.writeRetryScheduled, .callScheduleRetry "retryable_failure",
         .respond 200 "OK. Retryable failure, retry scheduled."]
      else if callStatus == "completed" && !machine then
        [.slackPositive, .respond 200 "OK. Human answered, no retry."]
      else if ["completed", "canceled"].contains callStatus && !machine then
        [.respond 200 "OK. Call ended, no retry."]
      else [.respond 200 "OK"])

/-- The full `call-status` handler (src/outgoing-call.js lines 322-444)
including the lookup-with-one-retry preamble (lines 326-345).
`firstLookup` and `secondLookup` are the results of the two `getCallData`
reads; the second read happens only after a 2000 ms sleep and only when the
first found nothing. -/
def handleCallStatus (callStatus answeredBy : String)
    (firstLookup secondLookup : Option CallRow) (twilioStatus : String) :
    List HandlerEv :=
  match firstLookup with
  | some call => .lookupCall :: processStatus callStatus answeredBy call twilioStatus
  | none =>
    match secondLookup with
    | some call =>
      [.lookupCall, .sleepMs 2000, .lookupCall] ++
        processStatus callStatus answeredBy call twilioStatus
    | none =>
      [.lookupCall, .sleepMs 2000, .lookupCall, .slackNonFatal,
       .respond 200 "OK. No call data found in calls table after retry."]

/-- Effect of one handler action on the call row in the store. Only
`writeAnsweredBy` and `writeRetryScheduled` are store writes. -/
def applyHandlerEv (c : CallRow) (e : HandlerEv) : CallRow :=
  match e with
  | .writeAnsweredBy v => { c with answeredBy := v }
  | .writeRetryScheduled => { c with retry_scheduled := true }
  | _ => c

/-- Fold of `applyHandlerEv` over a trace. -/
def applyHandlerEvs (c : CallRow) (evs : List HandlerEv) : CallRow :=
  evs.foldl applyHandlerEv c

/-- Whether an action is an invocation of `scheduleRetry`. -/
def isScheduleRetryEv : HandlerEv → Bool
  | .callScheduleRetry _ => true
  | _ => false

/-- Whether an action is a store write. -/
def isStoreWriteEv : HandlerEv → Bool
  | .writeAnsweredBy _ => true
  | .writeRetryScheduled => true
  | _ => false

/-- Number of `scheduleRetry` invocations in a trace. -/
def countScheduleRetry (evs : List HandlerEv) : Nat :=
  (evs.filter isScheduleRetryEv).length

/-- Checks that every `scheduleRetry` invocation in the trace is preceded by
a `writeRetryScheduled` store write (`flag` is true when the latch write
already happened). -/
def flagSetBeforeEverySchedule (flag : Bool) : List HandlerEv → Bool
  | [] => true
  | e :: rest =>
    match e with
    | .callScheduleRetry _ => flag && flagSetBeforeEverySchedule flag rest
    | .writeRetryScheduled => flagSetBeforeEverySchedule true rest
    | _ => flagSetBeforeEverySchedule flag rest

/-- One carrier status callback: the form fields of the request plus the
status the carrier control API would report on a live fetch. -/
structure StatusCallback where
  callStatus : String
  answeredBy : String := ""
  twilioStatus : String := "completed"
  deriving DecidableEq, Repr

/-- Sequential processing of one callback against the store state of one
carrier call id: the handler reads the current row (both lookups see the
same store because nothing else runs) and its store writes are applied in
order. The handler never creates a row, so an absent row stays absent. -/
def stepCallback (row : Option CallRow) (cb : StatusCallback) :
    Option CallRow × List HandlerEv :=
  match row with
  | none => (none, handleCallStatus cb.callStatus cb.answeredBy none none cb.twilioStatus)
  | some c =>
    let evs := handleCallStatus cb.callStatus cb.answeredBy (some c) (some c) cb.twilioStatus
    (some (applyHandlerEvs c evs), evs)

/-- Sequential processing of a list of callbacks for one carrier call id,
returning the final row and the total number of `scheduleRetry`
invocations. -/
def runCallbacks (row : Option CallRow) : List StatusCallback → Option CallRow × Nat
  | [] => (row, 0)
  | cb :: rest =>
    let p := stepCallback row cb
    let q := runCallbacks p.1 rest
    (q.1, countScheduleRetry p.2 + q.2)

/-- Two status callbacks for the same carrier call id racing: each handler
completes its `await getCallData` (src/outgoing-call.js line 327) before
either reaches the `await updateCallData` latch write (lines 386 and 419),
so both run `processStatus` on the same store snapshot `c`. Every store
operation in the handler is awaited, so this interleaving is realizable.
Returns the total number of `scheduleRetry` invocations. -/
def raceBothReadThenRun (cb1 cb2 : StatusCallback) (c : CallRow) : Nat :=
  countScheduleRetry (processStatus cb1.callStatus cb1.answeredBy c cb1.twilioStatus) +
  countScheduleRetry (processStatus cb2.callStatus cb2.answeredBy c cb2.twilioStatus)

/-- Observable actions of the per-job body of `processCallQueue`
(src/unnamed/part_002 lines 78-164). `markProcessing changes` records the
conditional UPDATE together with the number of rows it changed. -/
inductive QueueEv where
  | markProcessing (changes : Nat) : QueueEv
  | twilioCreateCall : QueueEv
  | storeCallData (sid : String) : QueueEv
  | deleteFromQueue (qid : Nat) : QueueEv
  | markFailed (qid : Nat) : QueueEv
  deriving DecidableEq, Repr

/-- The conditional UPDATE of `processCallQueue`
(src/unnamed/part_002 lines 86-89):
`UPDATE call_queue SET status = ?, last_attempt_at = ?
 WHERE queue_id = ? AND status = ?` with status set to `processing` and the
guard requiring `pending`. Returns the new table and the number of changed
rows (the `this.changes` the sqlite driver reports). -/
def markProcessingUpdate (table : List CallQueueRow) (qid : Nat) (now : Int) :
    List CallQueueRow × Nat :=
  (table.map fun r =>
     if r.queue_id == qid && r.status == "pending" then
       { r with status := "processing", last_attempt_at := some now }
     else r,
   (table.filter fun r => r.queue_id == qid && r.status == "pending").length)

/-- The per-job body of `processCallQueue` (src/unnamed/part_002 lines
78-164) in the execution where the UPDATE itself does not raise: the job is
marked processing, then — without inspecting the changed-row count — the
carrier call is created. `twilioOk` selects the try branch (call creation
and `setCallData` succeed, job row deleted) or the catch branch (job row
marked failed with `last_error`). Returns the resulting table and the
ordered actions. -/
def processJob (table : List CallQueueRow) (job : CallQueueRow) (sid : String)
    (twilioOk : Bool) (errorMessage : String) (now : Int) :
    List CallQueueRow × List QueueEv :=
  let upd := markProcessingUpdate table job.queue_id now
  if twilioOk then
    (upd.1.filter fun r => !(r.queue_id == job.queue_id),
     [.markProcessing upd.2, .twilioCreateCall, .storeCallData sid,
      .deleteFromQueue job.queue_id])
  else
    (upd.1.map fun r =>
       if r.queue_id == job.queue_id then
         { r with status := "failed", last_error := some errorMessage }
       else r,
     [.markProcessing upd.2, .twilioCreateCall, .markFailed job.queue_id])

/-- State of the two sockets of one media bridge
(src/outgoing-call.js lines 484-725): the carrier (Twilio) media WebSocket
and the agent (ElevenLabs) WebSocket. -/
structure BridgeConn where
  twilioOpen : Bool
  elevenOpen : Bool
  deriving DecidableEq, Repr

/-- Observable actions of the bridge close handlers. -/
inductive BridgeEv where
  | closeEleven : BridgeEv
  | slackNonFatal : BridgeEv
  deriving DecidableEq, Repr

/-- Handler of the carrier `stop` media event (src/outgoing-call.js lines
700-703): closes the agent socket when it is open. The carrier socket
itself delivered the stop event and is left as is. -/
def onTwilioStop (s : BridgeConn) : BridgeConn × List BridgeEv :=
  if s.elevenOpen then ({ s with elevenOpen := false }, [.closeEleven])
  else (s, [])

/-- Handler of the carrier socket `close` event (src/outgoing-call.js lines
713-718): the carrier socket is now closed; the agent socket is closed when
open. -/
def onTwilioClose (s : BridgeConn) : BridgeConn × List BridgeEv :=
  let s1 : BridgeConn := { s with twilioOpen := false }
  if s1.elevenOpen then ({ s1 with elevenOpen := false }, [.closeEleven])
  else (s1, [])

/-- Handler of the agent socket `close` event (src/outgoing-call.js lines
648-663): the agent socket is now closed; the handler only emits a Slack
notification when the close code is not 1000. -/
def onElevenClose (s : BridgeConn) (code : Nat) : BridgeConn × List BridgeEv :=
  let s1 : BridgeConn := { s with elevenOpen := false }
  if code != 1000 then (s1, [.slackNonFatal]) else (s1, [])

/-- State of one retry sequence: a pending queue row waiting for the queue
processor, or a tracked call waiting for status callbacks. -/
inductive SeqState where
  | queued (e : CallQueueRow) : SeqState
  | inCall (c : CallRow) : SeqState

/-- The first-attempt timestamp carried by a sequence state. -/
def seqFat : SeqState → Option Int
  | .queued e => e.first_attempt_timestamp
  | .inCall c => c.first_attempt_timestamp

/-- Transitions of one retry sequence, assembled from the embedded
operations: call initiation by the queue processor (`initialCallRow`,
src/unnamed/part_002 lines 104-119), store writes performed by the status
handler, and retry scheduling (`scheduleRetry` invoked with the stored row,
src/outgoing-call.js lines 408 and 420). -/
inductive SeqStep : SeqState → SeqState → Prop where
  | initiate (e : CallQueueRow) (sid : String) (now : Int) :
      SeqStep (.queued e) (.inCall (initialCallRow sid e now))
  | statusWrite (c : CallRow) (ev : HandlerEv) :
      SeqStep (.inCall c) (.inCall (applyHandlerEv c ev))
  | retry (c : CallRow) (force : Bool) (now off : Int) (row : CallQueueRow) :
      scheduleRetry (callDataOfRow c) force now off = .inserted row →
      SeqStep (.inCall c) (.queued row)

/-- Reflexive-transitive closure of `SeqStep` from a fixed start state. -/
inductive SeqReachable (s0 : SeqState) : SeqState → Prop where
  | refl : SeqReachable s0 s0
  | tail {s s' : SeqState} : SeqReachable s0 s → SeqStep s s' →
      SeqReachable s0 s'

/-! ## Theorems -/

/-- Unfolding equation for `nextTimeScheduledAt`. -/
theorem nextTime_eq_ite (off hour now : Int) :
    nextTimeScheduledAt off hour now =
      if (now + off - (now + off) % 86400000) + hour * 3600000 - off ≤ now
      then (now + off - (now + off) % 86400000) + hour * 3600000 - off + 86400000
      else (now + off - (now + off) % 86400000) + hour * 3600000 - off := rfl

/-- C1: for a next-occurrence-of-hour ladder step with target hour `hour` at
time `now`, in a civil zone of fixed UTC offset `off` (Europe/Rome is
+3600000 ms on the example date), the computed scheduled-at is the smallest
instant after `now` whose wall clock in that zone reads hour `hour`, minute
0 (and second 0, the granularity `setHours(h,0,0,0)` produces): it is
strictly greater than `now`, at most one day later, has local clock
`hour`:00:00.000, is minimal among such instants after `now`, equals H:00
of the current local day when `now` is before it and rolls to the next day
when `now` is at or past it; in particular for
`now` = 2025-03-14 10:15:00Z and hour 9 in Europe/Rome (offset +1 h) the
result is 2025-03-15 08:00:00Z. -/
theorem nextTime_smallest_occurrence (off hour now : Int)
    (h0 : 0 ≤ hour) (h24 : hour < 24) :
    now < nextTimeScheduledAt off hour now ∧
    nextTimeScheduledAt off hour now ≤ now + msPerDay ∧
    (nextTimeScheduledAt off hour now + off) % msPerDay = hour * 3600000 ∧
    (∀ s : Int, now < s → (s + off) % msPerDay = hour * 3600000 →
      nextTimeScheduledAt off hour now ≤ s) ∧
    ((now < (now + off - (now + off) % msPerDay) + hour * 3600000 - off →
        nextTimeScheduledAt off hour now =
          (now + off - (now + off) % msPerDay) + hour * 3600000 - off) ∧
      ((now + off - (now + off) % msPerDay) + hour * 3600000 - off ≤ now →
        nextTimeScheduledAt off hour now =
          (now + off - (now + off) % msPerDay) + hour * 3600000 - off + msPerDay)) ∧
    nextTimeScheduledAt 3600000 9 1741947300000 = 1742025600000 := by
  unfold msPerDay
  simp only [nextTime_eq_ite]
  refine ⟨?_, ?_, ?_, ?_, ⟨?_, ?_⟩, by decide⟩ <;> (split <;> omega)

/-- Witness for C1 at the concrete input of the claim: offset +1 h, hour 9,
`now` = 2025-03-14 10:15:00Z; the instantiated theorem yields the rolled
next-day result 2025-03-15 08:00:00Z. -/
theorem nextTime_smallest_occurrence_witness :
    nextTimeScheduledAt 3600000 9 1741947300000 = 1742025600000 :=
  (nextTime_smallest_occurrence 3600000 9 1741947300000 (by decide)
    (by decide)).2.2.2.2.2

/-- C3: `scheduleRetry` computes the next scheduled-at from the fixed
nine-step ladder indexed by the current retry count `i`: `now` for
`i` in 0, 2, 4, 6, 8; `now` plus one hour for `i` = 1; the next occurrence
of wall-clock hour 9, 14 and 19 for `i` = 3, 5 and 7; and the
`forceImmediate` option bypasses the ladder and yields `now` for every
index. -/
theorem retry_ladder_schedule (now off : Int) :
    scheduledAtBase false 0 now off = now ∧
    scheduledAtBase false 1 now off = now + 3600000 ∧
    scheduledAtBase false 2 now off = now ∧
    scheduledAtBase false 3 now off = nextTimeScheduledAt off 9 now ∧
    scheduledAtBase false 4 now off = now ∧
    scheduledAtBase false 5 now off = nextTimeScheduledAt off 14 now ∧
    scheduledAtBase false 6 now off = now ∧
    scheduledAtBase false 7 now off = nextTimeScheduledAt off 19 now ∧
    scheduledAtBase false 8 now off = now ∧
    (∀ i : Nat, scheduledAtBase true i now off = now) ∧
    ∀ (cd : CallDataForRetry) (f : Bool) (n o : Int) (row : CallQueueRow),
      scheduleRetry cd f n o = .inserted row →
      row.scheduled_at = scheduledAtBase f (cd.retry_count.getD 0) n o := by
  refine ⟨rfl, ?_, rfl, rfl, rfl, rfl, rfl, rfl, rfl, fun i => rfl, ?_⟩
  · show now + (1 : Nat) * 3600000 = now + 3600000
    norm_num
  · intro cd f n o row h
    simp only [scheduleRetry] at h
    split at h
    · exact absurd h (by simp)
    · split at h
      · exact absurd h (by simp)
      · cases h; rfl

/-- Witness for C3: a retry with retry count 1 (the one-hour-delay ladder
step) inserts a queue row scheduled exactly one hour after `now` = 5. -/
theorem retry_ladder_schedule_witness :
    (3600005 : Int) = scheduledAtBase false 1 5 0 :=
  (retry_ladder_schedule 0 0).2.2.2.2.2.2.2.2.2.2
    { retry_count := some 1, phone := "p", contactId := "c",
      first_attempt_timestamp := some 77 } false 5 0
    { contact_id := "c", phone_number := "p", retry_stage := 2,
      status := "pending", scheduled_at := 3600005,
      first_attempt_timestamp := some 77 }
    (by decide)

/-- Whether an action is the latch write. -/
def isWriteFlagEv : HandlerEv → Bool
  | .writeRetryScheduled => true
  | _ => false

theorem countScheduleRetry_append (a b : List HandlerEv) :
    countScheduleRetry (a ++ b) = countScheduleRetry a + countScheduleRetry b := by
  simp [countScheduleRetry, List.filter_append]

theorem applyHandlerEv_flag (c : CallRow) (e : HandlerEv) :
    (applyHandlerEv c e).retry_scheduled =
      (c.retry_scheduled || isWriteFlagEv e) := by
  cases e <;> simp [applyHandlerEv, isWriteFlagEv]

theorem applyHandlerEvs_flag (c : CallRow) (evs : List HandlerEv) :
    (applyHandlerEvs c evs).retry_scheduled =
      (c.retry_scheduled || evs.any isWriteFlagEv) := by
  induction evs generalizing c with
  | nil => simp [applyHandlerEvs]
  | cons e rest ih =>
    simp only [applyHandlerEvs, List.foldl_cons, List.any_cons] at *
    rw [ih, applyHandlerEv_flag, Bool.or_assoc]

/-- When the latch is already set the handler only acknowledges
(src/outgoing-call.js lines 347-350). -/
theorem processStatus_latched (cs ab ts : String) (call : CallRow)
    (h : call.retry_scheduled = true) :
    processStatus cs ab call ts = [.respond 200 "OK. Retry already handled."] := by
  simp [processStatus, h]

theorem processStatus_count_le_one (cs ab ts : String) (call : CallRow) :
    countScheduleRetry (processStatus cs ab call ts) ≤ 1 := by
  simp only [processStatus]
  repeat' split
  all_goals
    simp [countScheduleRetry_append, countScheduleRetry, isScheduleRetryEv]

theorem processStatus_sched_sets_flag (cs ab ts : String) (call : CallRow)
    (h : 1 ≤ countScheduleRetry (processStatus cs ab call ts)) :
    (applyHandlerEvs call (processStatus cs ab call ts)).retry_scheduled = true := by
  rw [applyHandlerEvs_flag]
  revert h
  simp only [processStatus]
  repeat' split
  all_goals
    simp [countScheduleRetry_append, countScheduleRetry, isScheduleRetryEv,
      isWriteFlagEv]

/-- C4: for a status callback whose call row exists with the
`retry_scheduled` latch unset: a status among no-answer, busy, failed, or a
completed or canceled status together with a machine answered-by
classification (`isMachineDetected` checks the
machine_start/fax/machine_beep/machine_end_silence/machine_end_other/
machine_end_beep list), makes the handler write the latch and invoke
`scheduleRetry` exactly once; a completed status with non-machine
answered-by is acknowledged with no retry invocation, the latch left unset,
and a positive Slack event emitted. -/
theorem retryable_terminal_classification
    (callStatus answeredBy twilioStatus : String) (call : CallRow)
    (hflag : call.retry_scheduled = false) :
    ((callStatus = "no-answer" ∨ callStatus = "busy" ∨ callStatus = "failed" ∨
        ((callStatus = "completed" ∨ callStatus = "canceled") ∧
          isMachineDetected answeredBy call.answeredBy = true)) →
      countScheduleRetry (processStatus callStatus answeredBy call twilioStatus) = 1 ∧
      HandlerEv.writeRetryScheduled ∈
        processStatus callStatus answeredBy call twilioStatus ∧
      (applyHandlerEvs call
        (processStatus callStatus answeredBy call twilioStatus)).retry_scheduled
        = true) ∧
    ((callStatus = "completed" ∧
        isMachineDetected answeredBy call.answeredBy = false) →
      countScheduleRetry (processStatus callStatus answeredBy call twilioStatus) = 0 ∧
      HandlerEv.slackPositive ∈
        processStatus callStatus answeredBy call twilioStatus ∧
      (applyHandlerEvs call
        (processStatus callStatus answeredBy call twilioStatus)).retry_scheduled
        = false) := by
  constructor
  · rintro (rfl | rfl | rfl | ⟨(rfl | rfl), hm⟩) <;>
      (simp only [processStatus, hflag, applyHandlerEvs_flag]
       repeat' split
       all_goals
         simp_all +decide [countScheduleRetry_append, countScheduleRetry,
           isScheduleRetryEv, isWriteFlagEv, terminalStatuses,
           isMachineDetected])
  · rintro ⟨rfl, hm⟩
    simp only [processStatus, hflag, applyHandlerEvs_flag]
    repeat' split
    all_goals
      simp_all +decide [countScheduleRetry_append, countScheduleRetry,
        isScheduleRetryEv, isWriteFlagEv, terminalStatuses, isMachineDetected]
    all_goals tauto

/-- Witness for C4: a no-answer callback on a fresh row (latch unset)
schedules exactly one retry and sets the latch. -/
theorem retryable_terminal_classification_witness :
    countScheduleRetry
      (processStatus "no-answer" "" { callSid := "CA1" } "in-progress") = 1 ∧
    HandlerEv.writeRetryScheduled ∈
      processStatus "no-answer" "" { callSid := "CA1" } "in-progress" ∧
    (applyHandlerEvs { callSid := "CA1" }
      (processStatus "no-answer" "" { callSid := "CA1" } "in-progress")).retry_scheduled
      = true :=
  (retryable_terminal_classification "no-answer" "" "in-progress"
    { callSid := "CA1" } rfl).1 (Or.inl rfl)

theorem countScheduleRetry_cons_lookup (ps : List HandlerEv) :
    countScheduleRetry (.lookupCall :: ps) = countScheduleRetry ps := by
  simp [countScheduleRetry, List.filter_cons, isScheduleRetryEv]

theorem applyHandlerEvs_cons_lookup (c : CallRow) (ps : List HandlerEv) :
    applyHandlerEvs c (.lookupCall :: ps) = applyHandlerEvs c ps := rfl

/-- Once the latch is set, any further sequence of callbacks schedules no
retry and leaves the row unchanged. -/
theorem runCallbacks_latched (c : CallRow) (h : c.retry_scheduled = true)
    (cbs : List StatusCallback) :
    (runCallbacks (some c) cbs).2 = 0 ∧ (runCallbacks (some c) cbs).1 = some c := by
  induction cbs with
  | nil => exact ⟨rfl, rfl⟩
  | cons cb rest ih =>
    simp only [runCallbacks, stepCallback, handleCallStatus]
    rw [processStatus_latched _ _ _ _ h]
    exact ⟨by simpa [countScheduleRetry, List.filter_cons, isScheduleRetryEv]
            using ih.1,
          by simpa [applyHandlerEvs, applyHandlerEv] using ih.2⟩

/-- Callbacks for an unknown carrier call id never create a row and never
schedule a retry. -/
theorem runCallbacks_none (cbs : List StatusCallback) :
    (runCallbacks none cbs).1 = none ∧ (runCallbacks none cbs).2 = 0 := by
  induction cbs with
  | nil => exact ⟨rfl, rfl⟩
  | cons cb rest ih =>
    simp only [runCallbacks, stepCallback]
    exact ⟨ih.1, by
      simp [handleCallStatus, countScheduleRetry, isScheduleRetryEv,
        List.filter_cons, ih.2]⟩

/-- C2 (amended): `retry_scheduled` is a latch for sequentially processed
callbacks: once set, every later callback is acknowledged without
scheduling; in every handler trace the latch write precedes every
`scheduleRetry` invocation; and any sequence of non-overlapping callbacks
for one carrier call id schedules at most one retry. (The original claim
extends this to racing callbacks; that part fails, see the
counterexample.) -/
theorem retry_latch_sequential :
    (∀ (cs ab ts : String) (c : CallRow), c.retry_scheduled = true →
      processStatus cs ab c ts = [.respond 200 "OK. Retry already handled."]) ∧
    (∀ (cs ab ts : String) (c : CallRow),
      flagSetBeforeEverySchedule false (processStatus cs ab c ts) = true) ∧
    (∀ (row : Option CallRow) (cbs : List StatusCallback),
      (runCallbacks row cbs).2 ≤ 1) := by
  refine ⟨processStatus_latched, ?_, ?_⟩
  · intro cs ab ts c
    simp only [processStatus]
    repeat' split
    all_goals simp [flagSetBeforeEverySchedule]
  · intro row cbs
    induction cbs generalizing row with
    | nil => exact Nat.zero_le 1
    | cons cb rest ih =>
      cases row with
      | none =>
        rw [(runCallbacks_none (cb :: rest)).2]
        exact Nat.zero_le 1
      | some c =>
        simp only [runCallbacks, stepCallback, handleCallStatus]
        rw [countScheduleRetry_cons_lookup, applyHandlerEvs_cons_lookup]
        have hle := processStatus_count_le_one cb.callStatus cb.answeredBy
          cb.twilioStatus c
        rcases Nat.lt_or_ge
          (countScheduleRetry (processStatus cb.callStatus cb.answeredBy c
            cb.twilioStatus)) 1 with h0 | h1
        · have hz : countScheduleRetry (processStatus cb.callStatus
              cb.answeredBy c cb.twilioStatus) = 0 := by omega
          rw [hz]
          simpa using ih (some (applyHandlerEvs c (processStatus cb.callStatus
            cb.answeredBy c cb.twilioStatus)))
        · have hf := processStatus_sched_sets_flag cb.callStatus cb.answeredBy
            cb.twilioStatus c h1
          have hz := (runCallbacks_latched _ hf rest).1
          omega

/-- Witness for C2 (amended): a callback on a row with the latch set is
acknowledged without any retry scheduling. -/
theorem retry_latch_sequential_witness :
    processStatus "no-answer" "" { callSid := "CA1", retry_scheduled := true }
        "completed" =
      [.respond 200 "OK. Retry already handled."] :=
  retry_latch_sequential.1 "no-answer" "" "completed"
    { callSid := "CA1", retry_scheduled := true } rfl

/-- Counterexample to C2 as stated: the latch check (line 347) and the latch
write (line 419) are separated by awaited store operations, so two racing
callbacks for the same carrier call id can both read the row before either
writes the latch; with the latch initially unset, two no-answer callbacks
then schedule two retries for that call id, not at most one. -/
theorem retry_latch_race_counterexample :
    ({ callSid := "CA1" } : CallRow).retry_scheduled = false ∧
    raceBothReadThenRun { callStatus := "no-answer" } { callStatus := "no-answer" }
      { callSid := "CA1" } = 2 := ⟨rfl, rfl⟩

/-- C8: a status callback whose carrier call id has no row on the first
lookup sleeps 2000 ms and retries the lookup exactly once; when the row is
still absent the handler emits an observability (Slack) event and a 200
acknowledgement, performs no store write and schedules nothing, and the
store row stays absent. -/
theorem unknown_call_dropped (cs ab ts : String) :
    handleCallStatus cs ab none none ts =
      [.lookupCall, .sleepMs 2000, .lookupCall, .slackNonFatal,
       .respond 200 "OK. No call data found in calls table after retry."] ∧
    (handleCallStatus cs ab none none ts).filter isStoreWriteEv = [] ∧
    countScheduleRetry (handleCallStatus cs ab none none ts) = 0 ∧
    (∀ cb : StatusCallback, (stepCallback none cb).1 = none) ∧
    (∀ c : CallRow, (handleCallStatus cs ab none (some c) ts).take 3 =
      [.lookupCall, .sleepMs 2000, .lookupCall]) := by
  refine ⟨rfl, rfl, rfl, fun cb => rfl, fun c => rfl⟩

/-- C5: `scheduleRetry` invoked with retry count at least
`MAX_TOTAL_ATTEMPTS - 1` (9) inserts nothing and takes the
max-attempts-notification exit; any row it does insert has `retry_stage`
between 1 and `MAX_TOTAL_ATTEMPTS - 1`, and the initial enqueue always uses
`retry_stage` 0, so every inserted queue entry has attempt index between 0
and `MAX_TOTAL_ATTEMPTS - 1` inclusive. -/
theorem max_attempts_guard :
    (∀ (cd : CallDataForRetry) (f : Bool) (now off : Int),
      MAX_TOTAL_ATTEMPTS - 1 ≤ cd.retry_count.getD 0 →
      scheduleRetry cd f now off = .maxAttemptsReached) ∧
    (∀ (cd : CallDataForRetry) (f : Bool) (now off : Int) (row : CallQueueRow),
      scheduleRetry cd f now off = .inserted row →
      1 ≤ row.retry_stage ∧ row.retry_stage ≤ MAX_TOTAL_ATTEMPTS - 1) ∧
    (∀ (a b c d e g h : String) (now : Int),
      (outboundCallEnqueue a b c d e g h now).retry_stage = 0) := by
  refine ⟨?_, ?_, fun a b c d e g h now => rfl⟩
  · intro cd f now off h
    simp only [scheduleRetry]
    rw [if_pos h]
  · intro cd f now off row h
    simp only [scheduleRetry] at h
    split at h
    · exact absurd h (by simp)
    · split at h
      · exact absurd h (by simp)
      · cases h
        simp only [MAX_TOTAL_ATTEMPTS] at *
        omega

/-- Witness for C5: at retry count 9 the scheduler takes the max-attempts
exit; a successful insert at retry count 2 produces stage 3, inside the
bounds. -/
theorem max_attempts_guard_witness :
    scheduleRetry { retry_count := some 9 } false 0 0 =
      RetryOutcome.maxAttemptsReached ∧
    (1 ≤ 3 ∧ 3 ≤ MAX_TOTAL_ATTEMPTS - 1) :=
  ⟨max_attempts_guard.1 { retry_count := some 9 } false 0 0 (by decide),
   max_attempts_guard.2.1
     { retry_count := some 2, phone := "p", contactId := "c",
       first_attempt_timestamp := some 77 } false 5 0
     { contact_id := "c", phone_number := "p", retry_stage := 3,
       status := "pending", scheduled_at := 5,
       first_attempt_timestamp := some 77 }
     (by decide)⟩

/-- C10: when neither the `phone` nor the `to` field nor, respectively,
neither the `contactId` nor the `contact_id` field resolves to a non-empty
value, `scheduleRetry` returns through one of its two notification-only
exits and inserts no queue entry. -/
theorem missing_contact_no_insert (cd : CallDataForRetry) (f : Bool)
    (now off : Int)
    (h : orFalsy cd.phone cd.«to» = "" ∨ orFalsy cd.contactId cd.contact_id = "") :
    scheduleRetry cd f now off = .maxAttemptsReached ∨
    scheduleRetry cd f now off = .missingContactData := by
  simp only [scheduleRetry]
  split
  · exact Or.inl rfl
  · exact Or.inr rfl

/-- Witness for C10: a call data object with empty phone and `to` fields is
dropped without insert. -/
theorem missing_contact_no_insert_witness :
    scheduleRetry { retry_count := some 1, contactId := "c" } false 0 0 =
      RetryOutcome.maxAttemptsReached ∨
    scheduleRetry { retry_count := some 1, contactId := "c" } false 0 0 =
      RetryOutcome.missingContactData :=
  missing_contact_no_insert { retry_count := some 1, contactId := "c" }
    false 0 0 (by decide)

/-- C6 (amended): the transition out of pending is a single conditional
UPDATE guarded by `status = pending` on the queue id — rows with a
different queue id or a non-pending status are left unchanged — but the
handler never inspects the changed-row count: in the non-error path the
carrier call is created regardless, so a zero-row UPDATE does not prevent
call initiation. -/
theorem pending_update_guard :
    (∀ (table : List CallQueueRow) (qid : Nat) (now : Int) (r : CallQueueRow),
      r ∈ table → (r.status ≠ "pending" ∨ r.queue_id ≠ qid) →
      r ∈ (markProcessingUpdate table qid now).1) ∧
    (∀ (table : List CallQueueRow) (qid : Nat) (now : Int)
        (r : CallQueueRow), r ∈ (markProcessingUpdate table qid now).1 →
      r ∈ table ∨ (r.status = "processing" ∧ r.last_attempt_at = some now)) ∧
    (∀ (table : List CallQueueRow) (job : CallQueueRow) (sid : String)
        (twilioOk : Bool) (errorMessage : String) (now : Int),
      QueueEv.twilioCreateCall ∈
        (processJob table job sid twilioOk errorMessage now).2) := by
  refine ⟨?_, ?_, ?_⟩
  · intro table qid now r hr hcond
    simp only [markProcessingUpdate, List.mem_map]
    refine ⟨r, hr, ?_⟩
    rcases hcond with hc | hc <;> simp_all
  · intro table qid now r hr
    simp only [markProcessingUpdate, List.mem_map] at hr
    obtain ⟨x, hx, hxr⟩ := hr
    by_cases hguard : (x.queue_id == qid && x.status == "pending") = true
    · rw [if_pos hguard] at hxr
      exact Or.inr (by rw [← hxr]; exact ⟨rfl, rfl⟩)
    · rw [if_neg hguard] at hxr
      exact Or.inl (hxr ▸ hx)
  · intro table job sid twilioOk errorMessage now
    simp only [processJob]
    split <;> simp

/-- Counterexample to C6 as stated: the per-job body only skips when the
UPDATE raises; it never checks the changed-row count. With a table whose
only row for queue id 1 is already in status processing (taken by a prior
partial run after the job was selected while pending), the guarded UPDATE
changes zero rows, yet the carrier call is still created and the row is
still deleted. -/
theorem pending_update_zero_rows_counterexample :
    (markProcessingUpdate
      [{ queue_id := 1, contact_id := "c1", phone_number := "+39",
         retry_stage := 0, status := "processing", scheduled_at := 0 }] 1 50).2
      = 0 ∧
    (processJob
      [{ queue_id := 1, contact_id := "c1", phone_number := "+39",
         retry_stage := 0, status := "processing", scheduled_at := 0 }]
      { queue_id := 1, contact_id := "c1", phone_number := "+39",
        retry_stage := 0, status := "pending", scheduled_at := 0 }
      "CA1" true "err" 50).2 =
      [.markProcessing 0, .twilioCreateCall, .storeCallData "CA1",
       .deleteFromQueue 1] := ⟨rfl, rfl⟩

/-- Inversion for `scheduleRetry`: an inserted row carries the callers
first-attempt timestamp, defaulting to `now` only when the caller has
none. -/
theorem scheduleRetry_inserted_fat (cd : CallDataForRetry) (f : Bool)
    (now off : Int) (row : CallQueueRow)
    (h : scheduleRetry cd f now off = .inserted row) :
    row.first_attempt_timestamp = some (cd.first_attempt_timestamp.getD now) := by
  simp only [scheduleRetry] at h
  split at h
  · exact absurd h (by simp)
  · split at h
    · exact absurd h (by simp)
    · cases h; rfl

/-- C7: within one retry sequence started by the initial enqueue at `t0`,
the first-attempt timestamp is fixed at `t0` and copied unchanged by every
call initiation (`initialCallRow`), every status-handler store write, and
every queue entry inserted by `scheduleRetry`: every reachable state of the
sequence carries first-attempt timestamp `t0`. -/
theorem first_attempt_timestamp_constant
    (a b c d e g h : String) (t0 : Int) (s : SeqState)
    (hr : SeqReachable (.queued (outboundCallEnqueue a b c d e g h t0)) s) :
    seqFat s = some t0 := by
  induction hr with
  | refl => rfl
  | tail _ hstep ih =>
    cases hstep with
    | initiate e sid now => simpa [seqFat, initialCallRow] using ih
    | statusWrite cc ev =>
      cases ev <;> simpa [seqFat, applyHandlerEv] using ih
    | retry cc force now off row hins =>
      have hrow := scheduleRetry_inserted_fat _ _ _ _ _ hins
      simp only [seqFat] at ih ⊢
      rw [hrow]
      simp [callDataOfRow, ih]

/-- Witness for C7: a concrete two-step sequence — initial enqueue at 1000,
initiation as carrier call CA1 at 2000, then a no-answer retry scheduled at
3000 — whose resulting queue entry still carries timestamp 1000. -/
theorem first_attempt_timestamp_constant_witness :
    seqFat (SeqState.queued
      { contact_id := "c1", phone_number := "+39", first_name := "Mario",
        full_name := "Mario Rossi", email := "m@x", full_address := "",
        retry_stage := 1, status := "pending", scheduled_at := 3000,
        initial_signed_url := "su", first_attempt_timestamp := some 1000 }) =
      some 1000 :=
  first_attempt_timestamp_constant "c1" "+39" "Mario" "Mario Rossi" "m@x" ""
    "su" 1000 _
    (SeqReachable.tail
      (SeqReachable.tail SeqReachable.refl
        (SeqStep.initiate
          (outboundCallEnqueue "c1" "+39" "Mario" "Mario Rossi" "m@x" "" "su"
            1000) "CA1" 2000))
      (SeqStep.retry
        (initialCallRow "CA1"
          (outboundCallEnqueue "c1" "+39" "Mario" "Mario Rossi" "m@x" "" "su"
            1000) 2000) false 3000 0 _ rfl))

/-- C9 (amended): carrier-side termination closes the agent socket — the
carrier stop event and the carrier socket close handler both leave the
agent socket closed — but the agent-socket close handler does not close the
carrier socket: it leaves it exactly as it was and only emits an
observability event when the close code is not 1000. -/
theorem bridge_close_semantics :
    (∀ s : BridgeConn,
      (onTwilioStop s).1.elevenOpen = false ∧
      (onTwilioClose s).1.elevenOpen = false ∧
      (onTwilioClose s).1.twilioOpen = false) ∧
    (∀ (s : BridgeConn) (code : Nat),
      (onElevenClose s code).1.twilioOpen = s.twilioOpen ∧
      (onElevenClose s code).1.elevenOpen = false ∧
      BridgeEv.closeEleven ∉ (onElevenClose s code).2 ∧
      ((code ≠ 1000 → (onElevenClose s code).2 = [BridgeEv.slackNonFatal]) ∧
        (code = 1000 → (onElevenClose s code).2 = []))) := by
  constructor
  · intro s
    refine ⟨?_, ?_, ?_⟩ <;>
      simp only [onTwilioStop, onTwilioClose] <;> split <;> simp_all
  · intro s code
    refine ⟨?_, ?_, ?_, ?_, ?_⟩ <;>
      simp only [onElevenClose] <;> split <;> simp_all

/-- Counterexample to C9 as stated: the agent (ElevenLabs) socket close
handler never closes the carrier socket. With both sockets open, an agent
close with code 1000 (and likewise 1005) leaves the carrier socket open and
emits nothing. -/
theorem bridge_agent_close_counterexample :
    (onElevenClose { twilioOpen := true, elevenOpen := true } 1000).1.twilioOpen
      = true ∧
    (onElevenClose { twilioOpen := true, elevenOpen := true } 1000).2 = [] ∧
    (onElevenClose { twilioOpen := true, elevenOpen := true } 1005).1.twilioOpen
      = true := ⟨rfl, rfl, rfl⟩

/-- Witness for C6 (amended): a failed row is untouched by the guarded
UPDATE, and the per-job body creates the carrier call on a concrete
input. -/
theorem pending_update_guard_witness :
    ({ queue_id := 1, contact_id := "c1", phone_number := "+39",
       retry_stage := 0, status := "failed", scheduled_at := 0 } : CallQueueRow) ∈
      (markProcessingUpdate
        [{ queue_id := 1, contact_id := "c1", phone_number := "+39",
           retry_stage := 0, status := "failed", scheduled_at := 0 }] 1 50).1 ∧
    QueueEv.twilioCreateCall ∈
      (processJob []
        { queue_id := 2, contact_id := "c2", phone_number := "+40",
          retry_stage := 1, status := "pending", scheduled_at := 0 }
        "CA2" true "err" 60).2 :=
  ⟨pending_update_guard.1 _ 1 50 _ (by simp) (Or.inl (by decide)),
   pending_update_guard.2.2 [] _ "CA2" true "err" 60⟩

/-- Witness for C9 (amended): an abnormal agent close (code 1006) on a live
bridge leaves the carrier socket state untouched and emits the
observability event. -/
theorem bridge_close_semantics_witness :
    (onElevenClose { twilioOpen := true, elevenOpen := true } 1006).2 =
      [BridgeEv.slackNonFatal] :=
  ((bridge_close_semantics.2 { twilioOpen := true, elevenOpen := true }
    1006).2.2.2.1 (by decide))

end AICaller
